import Mathlib

/-!
Verification of the Product Identity & Price/Offer Comparison Engine of the
grocerysaver backend (Django app `grocerysaver`).

The Python source is embedded shallowly:
- pure helpers (`build_ean13_code`, `get_discount_percent`, price ranking)
  become Lean functions;
- stateful endpoints (`ProductScanView.post`, the admin formset cleaning)
  become functions threading an explicit database / reservation-set state;
- randomness (`random.choices`, `uuid.uuid4`) is abstracted as an oracle
  `gen : Nat -> String` giving the candidate produced by the n-th generator
  call of a run, or as an arbitrary list of 12 digits for EAN-13;
- fixed-point monetary values (`DecimalField(max_digits=10, decimal_places=2)`)
  are embedded as integer cents (`Int`), which is exact; the offer discount
  percentage, which divides, is embedded over `Rat`;
- fallible code returns an explicit result inductive instead of raising.

Model classes `ProductCode`, `ProductCodeType` and `Offer` are referenced by
the sources but their defining module is not part of the excerpt; the columns
and the uniqueness constraint on `ProductCode.code` used below are modelled
from the spec (sections 3 and 5).
-/

namespace GrocerySaver

/-- Embedding of the Python string method `str.strip()` restricted to
whitespace stripping: drop whitespace from both ends.  (Defined structurally
on the character list so that concrete instances reduce in the kernel.) -/
def pyStrip (s : String) : String :=
  ⟨((s.data.dropWhile Char.isWhitespace).reverse.dropWhile Char.isWhitespace).reverse⟩

/-- Embedding of the Python string method `str.lower()` (ASCII case fold,
which is all the view compares against). -/
def pyLower (s : String) : String :=
  ⟨s.data.map Char.toLower⟩

/-! ## 4.1 Code Generator: `build_ean13_code` (admin.py lines 39-46)

The Python function draws 12 random decimal digits and appends a check
digit.  The random part is the parameter `base`; digits are embedded as
natural numbers below 10 instead of characters. -/

/-- The running total of the Python loop
`for idx, char in enumerate(base): total += digit if idx % 2 == 0 else digit * 3`,
started at position `i`. -/
def ean13WeightedSumFrom : Nat → List Nat → Nat
  | _, [] => 0
  | i, d :: ds => (if i % 2 = 0 then d else d * 3) + ean13WeightedSumFrom (i + 1) ds

/-- Weighted digit sum of `build_ean13_code`: even 0-indexed positions weigh 1,
odd positions weigh 3. -/
def ean13WeightedSum (digits : List Nat) : Nat :=
  ean13WeightedSumFrom 0 digits

/-- The check digit `(10 - (total % 10)) % 10` computed by `build_ean13_code`. -/
def ean13CheckDigit (base : List Nat) : Nat :=
  (10 - ean13WeightedSum base % 10) % 10

/-- Embedding of `build_ean13_code` (admin.py): the 12 random digits are the
parameter, the result is the base with the check digit appended
(`f'{base}{check_digit}'`). -/
def build_ean13_code (base : List Nat) : List Nat :=
  base ++ [ean13CheckDigit base]

/-! ## 4.2 Code Deduplicator: `build_unique_product_code` (admin.py lines 53-61)

`gen n` is the candidate produced by the n-th generation call of the run
(`build_qr_code()` or `build_ean13_code()` depending on `code_type`; the
claims quantify over every oracle, so the distinction is immaterial here).
`persisted` is the set of `ProductCode.code` values in storage
(`ProductCode.objects.filter(code=candidate).exists()`), `reserved` the
caller-provided in-flight reservation set.  The function returns the accepted
candidate together with the next unused oracle index, or `none` for the
`ValidationError` raised after 50 failed attempts. -/
def build_unique_product_code (gen : Nat → String) (persisted : List String)
    (reserved : List String) : Nat → Nat → Option (String × Nat)
  | 0, _ => none
  | fuel + 1, ctr =>
    let candidate := gen ctr
    if candidate ∈ reserved then
      build_unique_product_code gen persisted reserved fuel (ctr + 1)
    else if candidate ∈ persisted then
      build_unique_product_code gen persisted reserved fuel (ctr + 1)
    else
      some (candidate, ctr + 1)

/-! ## Admin batch edit (admin.py lines 64-107)

One inline row of the product-code formset.  `delete` models both the DELETE
checkbox and the rows Django skips for having no `cleaned_data`; `code` and
`codeType` are the cleaned field values with `""` standing for an absent
value. -/
structure FormRow where
  delete : Bool
  code : String
  codeType : String
deriving DecidableEq, Repr

/-- Embedding of `ProductCodeAutoForm.clean` (admin.py lines 73-84): rows kept
for deletion pass through; an empty (after stripping) code is replaced by a
generated one with an empty reservation set (`build_unique_product_code(code_type)`
passes no `reserved_codes`); a non-empty code passes through unchanged.
Returns the updated row and the next oracle index, or `none` for the
`ValidationError` of an exhausted generator. -/
def ProductCodeAutoForm_clean (gen : Nat → String) (persisted : List String)
    (r : FormRow) (ctr : Nat) : Option (FormRow × Nat) :=
  if r.delete then some (r, ctr)
  else if pyStrip r.code = "" then
    match build_unique_product_code gen persisted [] 50 ctr with
    | none => none
    | some (c, ctr1) => some ({ r with code := c }, ctr1)
  else
    some (r, ctr)

/-- Embedding of the loop body of `ProductCodeInlineFormSet.clean`
(admin.py lines 87-107) over the rows, threading the `used_codes` set and the
oracle index.  Deleted rows (and rows without `cleaned_data`) contribute no
code; otherwise the stripped code is kept when it is non-empty and not in
`used_codes`, and regenerated via `build_unique_product_code(code_type,
reserved_codes=used_codes)` when it is empty or already used.  Every kept or
regenerated code is added to `used_codes` before the next row.  Returns the
accepted codes in row order and the final `used_codes`; `none` propagates the
`ValidationError` of an exhausted generator. -/
def formsetCleanGo (gen : Nat → String) (persisted : List String) :
    List FormRow → List String → Nat → Option (List String × List String)
  | [], used, _ => some ([], used)
  | r :: rs, used, ctr =>
    if r.delete then formsetCleanGo gen persisted rs used ctr
    else
      let code0 := pyStrip r.code
      if code0 = "" ∨ code0 ∈ used then
        match build_unique_product_code gen persisted used 50 ctr with
        | none => none
        | some (c, ctr1) =>
          match formsetCleanGo gen persisted rs (c :: used) ctr1 with
          | none => none
          | some (codes, usedF) => some (c :: codes, usedF)
      else
        match formsetCleanGo gen persisted rs (code0 :: used) ctr with
        | none => none
        | some (codes, usedF) => some (code0 :: codes, usedF)

/-- Embedding of `ProductCodeInlineFormSet.clean`: process all rows starting
from an empty `used_codes` set. -/
def ProductCodeInlineFormSet_clean (gen : Nat → String) (persisted : List String)
    (rows : List FormRow) : Option (List String × List String) :=
  formsetCleanGo gen persisted rows [] 0

/-! ## 4.3 Catalog Resolver: `ProductScanView.post` (views.py lines 527-590)

The persisted state visible to the scan flow.  Monetary values are integer
cents.  `nextProductId` supplies the primary key of a freshly created
product. -/
structure ProductRow where
  pid : Nat
  categoryId : Nat
  name : String
  brand : String
  description : String
deriving DecidableEq, Repr

/-- Modelled from the spec: one row of the `ProductCode` model (its module is
absent from the excerpt) — `code` (unique across all codes, case-exact),
`code_type`, owning product. -/
structure CodeRow where
  code : String
  codeType : String
  productId : Nat
deriving DecidableEq, Repr

/-- One row of the `ProductPrice` model: (product, store) unique pair and a
price in cents. -/
structure PriceRow where
  productId : Nat
  storeId : Nat
  price : Int
deriving DecidableEq, Repr

/-- The database state the scan flow reads and writes.  Categories and stores
are referenced by id only. -/
structure DB where
  categories : List Nat
  stores : List Nat
  products : List ProductRow
  codes : List CodeRow
  prices : List PriceRow
  nextProductId : Nat
deriving DecidableEq, Repr

/-- The scan request body after JSON parsing (`ProductScanSerializer` fields);
`none` stands for an absent key.  `price` is in cents. -/
structure ScanRequest where
  code : String
  codeType : Option String
  categoryId : Option Nat
  name : Option String
  brand : Option String
  description : Option String
  storeId : Option Nat
  price : Option Int
deriving DecidableEq, Repr

/-- The error responses of the scan endpoint:
`validationFailed` = the serializer raises (empty code, store/price supplied
without the other, or price below the 0.01 minimum);
`insufficientData` = 404 "Codigo no registrado. Envia category_id y name ...";
`categoryNotFound` = 400 "Categoria no encontrada.";
`storeNotFound` = 400 "Tienda no encontrada.";
`integrityError` = an uncaught unique-constraint violation on the code column
(the view wraps the insert in no try/except and no transaction). -/
inductive ScanError where
  | validationFailed
  | insufficientData
  | categoryNotFound
  | storeNotFound
  | integrityError
deriving DecidableEq, Repr

/-- The success payload fields of the scan response that the claims mention. -/
structure ScanResp where
  matched : Bool
  productCreated : Bool
  codeCreated : Bool
  priceUpdated : Bool
  scannedCode : String
  productId : Nat
deriving DecidableEq, Repr

/-- Result of a scan request. -/
inductive ScanResult where
  | ok (r : ScanResp)
  | err (e : ScanError)
deriving DecidableEq, Repr

/-- A scan outcome: the HTTP-level result together with the database state
left behind.  The view runs outside any transaction, so an error response can
leave earlier writes of the same request in place. -/
structure ScanOutcome where
  result : ScanResult
  db : DB
deriving DecidableEq, Repr

/-- Embedding of `ProductScanSerializer` validation: `validate_code` strips
the code and rejects an empty one; `validate` rejects `store_id` without
`price` and vice versa; the `price` field enforces `min_value=0.01` (1 cent).
Returns the stripped code on success.  (DRF CharFields strip surrounding
whitespace by default; the stripping of `name`, `brand` and `description` is
applied at their use sites below.) -/
def validateScan (req : ScanRequest) : Option String :=
  let code := pyStrip req.code
  if code = "" then none
  else if req.storeId.isSome ≠ req.price.isSome then none
  else if req.price.getD 1 < 1 then none
  else some code

/-- Embedding of `ProductCode.objects.filter(code=code).first()`: exact,
case-sensitive lookup. -/
def findCode (db : DB) (c : String) : Option CodeRow :=
  db.codes.find? (fun row => row.code == c)

/-- Embedding of `Product.objects.get_or_create(category=..., name=...,
brand=..., defaults={'description': ...})`: the lookup key is the
(category, name, brand) triple, `description` only seeds a fresh row.
Returns the target product, the `product_created` flag and the new state. -/
def getOrCreateProduct (db : DB) (cid : Nat) (nm br descr : String) :
    ProductRow × Bool × DB :=
  match db.products.find? (fun r => r.categoryId == cid && r.name == nm && r.brand == br) with
  | some r => (r, false, db)
  | none =>
    let r : ProductRow := ⟨db.nextProductId, cid, nm, br, descr⟩
    (r, true, { db with
                  products := db.products ++ [r],
                  nextProductId := db.nextProductId + 1 })

/-- Embedding of `ProductPrice.objects.update_or_create(product=..., store=...,
defaults={'price': price})`: overwrite the price of the (product, store) row
when it exists, insert it otherwise. -/
def upsertPrice (db : DB) (pid sid : Nat) (p : Int) : DB :=
  if db.prices.any (fun r => r.productId == pid && r.storeId == sid) then
    { db with prices := (db.prices.map (fun r =>
        if r.productId == pid && r.storeId == sid then { r with price := p } else r)) }
  else
    { db with prices := db.prices ++ [⟨pid, sid, p⟩] }

/-- The tail of `ProductScanView.post` from `price_updated = False` on
(views.py lines 565-590): resolve the optional (store, price) pair, upsert
the price, and build the response; `matched` is `not code_created`. -/
def scanPricePart (req : ScanRequest) (db : DB) (pid : Nat)
    (productCreated codeCreated : Bool) (code : String) : ScanOutcome :=
  match req.storeId, req.price with
  | some sid, some p =>
    if sid ∈ db.stores then
      ⟨.ok ⟨!codeCreated, productCreated, codeCreated, true, code, pid⟩,
        upsertPrice db pid sid p⟩
    else
      ⟨.err .storeNotFound, db⟩
  | _, _ =>
    ⟨.ok ⟨!codeCreated, productCreated, codeCreated, false, code, pid⟩, db⟩

/-- Embedding of `ProductScanView.post`, parameterised by the snapshot of
code values the unique constraint on `ProductCode.code` is checked against
when the insert commits.  A sequential request passes the codes of `db`
itself (see `ProductScanView_post`); a concurrent writer is modelled by a
larger snapshot.  The constraint check is modelled from the spec (section 3
invariants); everything else follows views.py lines 527-590, which contain
no try/except and no transaction, so the `integrityError` outcome keeps the
product row a preceding `get_or_create` may have added. -/
def scanWithCommit (req : ScanRequest) (db : DB) (commitCodes : List String) :
    ScanOutcome :=
  match validateScan req with
  | none => ⟨.err .validationFailed, db⟩
  | some code =>
    match findCode db code with
    | some row =>
      scanPricePart req db row.productId false false code
    | none =>
      let nm := pyStrip (req.name.getD "")
      if req.categoryId.getD 0 = 0 ∨ nm = "" then
        ⟨.err .insufficientData, db⟩
      else
        let cid := req.categoryId.getD 0
        if cid ∈ db.categories then
          let res := getOrCreateProduct db cid nm (pyStrip (req.brand.getD ""))
            (pyStrip (req.description.getD ""))
          let prod := res.1
          let productCreated := res.2.1
          let db1 := res.2.2
          if code ∈ commitCodes then
            ⟨.err .integrityError, db1⟩
          else
            let db2 := { db1 with
              codes := db1.codes ++ [⟨code, req.codeType.getD "barcode", prod.pid⟩] }
            scanPricePart req db2 prod.pid productCreated true code
        else
          ⟨.err .categoryNotFound, db⟩

/-- Embedding of `ProductScanView.post` for a request running alone: the
commit-time snapshot is the state the lookup saw. -/
def ProductScanView_post (req : ScanRequest) (db : DB) : ScanOutcome :=
  scanWithCommit req db (db.codes.map (fun r => r.code))

/-- A scan request carrying only a code, as issued by a follow-up scan of a
freshly created code. -/
def codeOnlyRequest (c : String) : ScanRequest :=
  ⟨c, none, none, none, none, none, none, none⟩

/-! ## 4.4 Price/Offer Aggregator -/

/-- A price entry of a product as read by `ProductPriceComparisonView.get`
(store name and price in cents). -/
structure PriceEntry where
  store : String
  price : Int
deriving DecidableEq, Repr

/-- The comparison payload: best (cheapest) option, most expensive option,
and the savings delta in cents, all `none` for a product without prices. -/
structure Comparison where
  best : Option PriceEntry
  worst : Option PriceEntry
  savings : Option Int
deriving DecidableEq, Repr

/-- Embedding of the price-ranking part of `ProductPriceComparisonView.get`
(views.py lines 676-707): order the prices ascending by price
(`order_by('price')`, stable on ties), take the first as `best_option` and
the last as `most_expensive_option`, and report
`savings = most_expensive.price - best.price`; a product without prices gets
null options. -/
def compare_prices (prices : List PriceEntry) : Comparison :=
  let ordered := List.insertionSort (fun a b => a.price ≤ b.price) prices
  match ordered with
  | [] => ⟨none, none, none⟩
  | b :: rest =>
    let w := rest.getLastD b
    ⟨some b, some w, some (w.price - b.price)⟩

/-- Modelled from the spec: one row of the `Offer` model (its module is
absent from the excerpt) with the columns `OfferListView.get` filters on:
store, product, the category and name of the product, and the
`[starts_at, ends_at]` window.  Timestamps are integers. -/
structure OfferRow where
  oid : Nat
  productId : Nat
  storeId : Nat
  categoryId : Nat
  productName : String
  startsAt : Int
  endsAt : Int
deriving DecidableEq, Repr

/-- Error of the offer listing: the 400 "Parametro active invalido." -/
inductive OfferError where
  | invalidFilterValue
deriving DecidableEq, Repr

/-- Result of the offer listing. -/
inductive OfferResult where
  | ok (offers : List OfferRow)
  | err (e : OfferError)
deriving DecidableEq, Repr

/-- Does `needle` start `hay`?  (Structural helper for the case-insensitive
substring filter.) -/
def charsStartWith : List Char → List Char → Bool
  | _, [] => true
  | [], _ :: _ => false
  | h :: hs, n :: ns => h == n && charsStartWith hs ns

/-- Does `needle` occur contiguously inside `hay`? -/
def charsContain : List Char → List Char → Bool
  | [], needle => needle.isEmpty
  | h :: t, needle => charsStartWith (h :: t) needle || charsContain t needle

/-- Embedding of the `icontains` lookup: case-insensitive substring match. -/
def icontains (hay needle : String) : Bool :=
  charsContain (pyLower hay).data (pyLower needle).data

/-- The recognised true tokens of the `active` filter. -/
def activeTrueTokens : List String := ["true", "1", "yes", "on"]

/-- The recognised false tokens of the `active` filter. -/
def activeFalseTokens : List String := ["false", "0", "no", "off"]

/-- The narrowing filters of `OfferListView.get` (views.py lines 611-623):
optional store, product and category ids and a case-insensitive substring
search on the product name; Python skips an empty search string
(`if search:`), and the id parameters model only present, truthy values. -/
def applyOfferNarrowing (storeId productId categoryId : Option Nat)
    (search : Option String) (offers : List OfferRow) : List OfferRow :=
  let l1 := match storeId with
    | some sid => offers.filter (fun o => o.storeId == sid)
    | none => offers
  let l2 := match productId with
    | some pid => l1.filter (fun o => o.productId == pid)
    | none => l1
  let l3 := match categoryId with
    | some cid => l2.filter (fun o => o.categoryId == cid)
    | none => l2
  match search with
  | some s => if s = "" then l3 else l3.filter (fun o => icontains o.productName s)
  | none => l3

/-- Embedding of `OfferListView.get` (views.py lines 596-632).  The `active`
query parameter is `none` when absent; the view computes
`(request.query_params.get('active') or 'true').strip().lower()`, so both an
absent and an empty value fall back to `'true'`.  A true token keeps only
offers whose window contains `now` inclusively
(`starts_at__lte=now, ends_at__gte=now`); a false token keeps everything;
anything else is a 400. -/
def OfferListView_get (active : Option String)
    (storeId productId categoryId : Option Nat) (search : Option String)
    (now : Int) (offers : List OfferRow) : OfferResult :=
  let raw := match active with
    | none => "true"
    | some s => if s = "" then "true" else s
  let ap := pyLower (pyStrip raw)
  if ap ∈ activeTrueTokens then
    .ok (applyOfferNarrowing storeId productId categoryId search
      (offers.filter (fun o => decide (o.startsAt ≤ now) && decide (now ≤ o.endsAt))))
  else if ap ∈ activeFalseTokens then
    .ok (applyOfferNarrowing storeId productId categoryId search offers)
  else
    .err .invalidFilterValue

/-! ## Offer discount: `OfferSerializer.get_discount_percent`
(serializers.py lines 288-292)

`normal_price` and `offer_price` are `DecimalField` values; Python computes
`((normal_price - offer_price) / normal_price) * 100` in `decimal.Decimal`
arithmetic and formats it with two decimals, which rounds half to even.  The
embedding works in exact rationals and returns the result as an integer
count of hundredths of a percent. -/

/-- Round a rational to the nearest integer, ties to the even integer (the
rounding applied by formatting a `decimal.Decimal` with two decimals). -/
def roundHalfEven (q : ℚ) : ℤ :=
  let f := ⌊q⌋
  let r := q - f
  if r < 1 / 2 then f
  else if 1 / 2 < r then f + 1
  else if 2 ∣ f then f else f + 1

/-- Embedding of `get_discount_percent`: `0` when `normal_price == 0`, else
`((normal_price - offer_price) / normal_price) * 100` rounded to two
decimals; the result counts hundredths of a percent (`2040` renders as
`'20.40'`). -/
def get_discount_percent (normalPrice offerPrice : ℚ) : ℤ :=
  if normalPrice = 0 then 0
  else roundHalfEven ((normalPrice - offerPrice) / normalPrice * 100 * 100)

/-! ## Helper lemmas -/

/-- The weighted sum of an appended digit: the digit weighs 1 when it lands on
an even position, 3 otherwise. -/
theorem ean13WeightedSumFrom_append (c : Nat) :
    ∀ (l : List Nat) (i : Nat),
      ean13WeightedSumFrom i (l ++ [c]) =
        ean13WeightedSumFrom i l + (if (i + l.length) % 2 = 0 then c else c * 3) := by
  intro l
  induction l with
  | nil => intro i; simp [ean13WeightedSumFrom]
  | cons d ds ih =>
    intro i
    rw [List.cons_append]
    simp only [ean13WeightedSumFrom, List.length_cons]
    rw [ih (i + 1)]
    have h2 : i + 1 + ds.length = i + (ds.length + 1) := by omega
    rw [h2]
    omega

/-- A successful `build_unique_product_code` run returns a candidate outside
both the reservation set and storage, consuming at most `fuel` oracle
indices. -/
theorem build_unique_some_spec (gen : Nat → String) (persisted reserved : List String) :
    ∀ (fuel ctr : Nat) (c : String) (n : Nat),
      build_unique_product_code gen persisted reserved fuel ctr = some (c, n) →
      c ∉ reserved ∧ c ∉ persisted ∧ ctr < n ∧ n ≤ ctr + fuel := by
  intro fuel
  induction fuel with
  | zero => intro ctr c n h; simp [build_unique_product_code] at h
  | succ fuel ih =>
    intro ctr c n h
    simp only [build_unique_product_code] at h
    by_cases h1 : gen ctr ∈ reserved
    · rw [if_pos h1] at h
      rcases ih (ctr + 1) c n h with ⟨a, b, d, e⟩
      exact ⟨a, b, by omega, by omega⟩
    · rw [if_neg h1] at h
      by_cases h2 : gen ctr ∈ persisted
      · rw [if_pos h2] at h
        rcases ih (ctr + 1) c n h with ⟨a, b, d, e⟩
        exact ⟨a, b, by omega, by omega⟩
      · rw [if_neg h2] at h
        rcases Option.some.inj h with h3
        rcases Prod.mk.injEq .. ▸ h3 with ⟨hc, hn⟩
        subst hc; subst hn
        exact ⟨h1, h2, by omega, by omega⟩

/-- When every candidate of the run collides, `build_unique_product_code`
exhausts its retry bound and fails. -/
theorem build_unique_none_of_collide (gen : Nat → String) (persisted reserved : List String) :
    ∀ (fuel ctr : Nat),
      (∀ i < fuel, gen (ctr + i) ∈ reserved ∨ gen (ctr + i) ∈ persisted) →
      build_unique_product_code gen persisted reserved fuel ctr = none := by
  intro fuel
  induction fuel with
  | zero => intro ctr _; simp [build_unique_product_code]
  | succ fuel ih =>
    intro ctr hall
    have h0 := hall 0 (by omega)
    simp only [Nat.add_zero] at h0
    have hrec := ih (ctr + 1) (by
      intro i hi
      have := hall (i + 1) (by omega)
      have heq : ctr + (i + 1) = ctr + 1 + i := by omega
      rw [heq] at this
      exact this)
    simp only [build_unique_product_code]
    rcases h0 with h0 | h0
    · rw [if_pos h0]; exact hrec
    · by_cases h1 : gen ctr ∈ reserved
      · rw [if_pos h1]; exact hrec
      · rw [if_neg h1, if_pos h0]; exact hrec

/-- Fold invariant of `formsetCleanGo`: on success, every emitted code is
fresh with respect to the incoming `used_codes` set, the emitted codes are
pairwise distinct, and the final set is the incoming set plus the emitted
codes. -/
theorem formsetCleanGo_spec (gen : Nat → String) (persisted : List String) :
    ∀ (rows : List FormRow) (used : List String) (ctr : Nat)
      (codes usedF : List String),
      formsetCleanGo gen persisted rows used ctr = some (codes, usedF) →
      (∀ c ∈ codes, c ∉ used) ∧ codes.Pairwise (· ≠ ·) ∧
      (∀ x, x ∈ usedF ↔ x ∈ codes ∨ x ∈ used) := by
  intro rows
  induction rows with
  | nil =>
    intro used ctr codes usedF h
    simp only [formsetCleanGo, Option.some.injEq, Prod.mk.injEq] at h
    rcases h with ⟨h1, h2⟩
    subst h1; subst h2
    simp
  | cons r rs ih =>
    intro used ctr codes usedF h
    simp only [formsetCleanGo] at h
    by_cases hdel : r.delete
    · rw [if_pos hdel] at h
      exact ih used ctr codes usedF h
    · rw [if_neg hdel] at h
      by_cases hcond : pyStrip r.code = "" ∨ pyStrip r.code ∈ used
      · rw [if_pos hcond] at h
        rcases hgen : build_unique_product_code gen persisted used 50 ctr with _ | ⟨c, ctr1⟩
        · simp only [hgen] at h
          exact Option.noConfusion h
        · simp only [hgen] at h
          rcases hrec : formsetCleanGo gen persisted rs (c :: used) ctr1 with _ | ⟨codes1, usedF1⟩
          · simp only [hrec] at h
            exact Option.noConfusion h
          · simp only [hrec, Option.some.injEq, Prod.mk.injEq] at h
            rcases h with ⟨h1, h2⟩
            subst h1; subst h2
            rcases build_unique_some_spec gen persisted used 50 ctr c ctr1 hgen with
              ⟨hcu, _, _, _⟩
            rcases ih (c :: used) ctr1 codes1 usedF1 hrec with ⟨f1, f2, f3⟩
            refine ⟨?_, ?_, ?_⟩
            · intro x hx
              rcases List.mem_cons.mp hx with h | h
              · subst h; exact hcu
              · intro hxu
                exact f1 x h (List.mem_cons_of_mem c hxu)
            · refine List.pairwise_cons.mpr ⟨?_, f2⟩
              intro x hx hxc
              exact f1 x hx (by simp [hxc])
            · intro x
              constructor
              · intro hx
                rcases (f3 x).mp hx with h | h
                · exact Or.inl (List.mem_cons_of_mem c h)
                · rcases List.mem_cons.mp h with h | h
                  · exact Or.inl (by simp [h])
                  · exact Or.inr h
              · intro hx
                rcases hx with h | h
                · rcases List.mem_cons.mp h with h | h
                  · exact (f3 x).mpr (Or.inr (by simp [h]))
                  · exact (f3 x).mpr (Or.inl h)
                · exact (f3 x).mpr (Or.inr (List.mem_cons_of_mem c h))
      · rw [if_neg hcond] at h
        push_neg at hcond
        rcases hcond with ⟨hne, hnu⟩
        rcases hrec : formsetCleanGo gen persisted rs (pyStrip r.code :: used) ctr
            with _ | ⟨codes1, usedF1⟩
        · simp only [hrec] at h
          exact Option.noConfusion h
        · simp only [hrec, Option.some.injEq, Prod.mk.injEq] at h
          rcases h with ⟨h1, h2⟩
          subst h1; subst h2
          rcases ih (pyStrip r.code :: used) ctr codes1 usedF1 hrec with ⟨f1, f2, f3⟩
          refine ⟨?_, ?_, ?_⟩
          · intro x hx
            rcases List.mem_cons.mp hx with h | h
            · subst h; exact hnu
            · intro hxu
              exact f1 x h (List.mem_cons_of_mem _ hxu)
          · refine List.pairwise_cons.mpr ⟨?_, f2⟩
            intro x hx hxc
            exact f1 x hx (by simp [hxc])
          · intro x
            constructor
            · intro hx
              rcases (f3 x).mp hx with h | h
              · exact Or.inl (List.mem_cons_of_mem _ h)
              · rcases List.mem_cons.mp h with h | h
                · exact Or.inl (by simp [h])
                · exact Or.inr h
            · intro hx
              rcases hx with h | h
              · rcases List.mem_cons.mp h with h | h
                · exact (f3 x).mpr (Or.inr (by simp [h]))
                · exact (f3 x).mpr (Or.inl h)
              · exact (f3 x).mpr (Or.inr (List.mem_cons_of_mem _ h))


/-! ## Claims -/

/-- Claim C2: every barcode produced by the EAN-13 generator is a 13-digit
decimal string (here: a list of 13 digits) whose first 12 digits are the
random base and whose 13th digit equals `(10 - (S mod 10)) mod 10`, `S`
being the sum of the first 12 digits weighted 1 at even 0-indexed positions
and 3 at odd ones; consequently the full weighted sum is divisible by 10. -/
theorem C2_ean13_check_digit (base : List Nat) (h12 : base.length = 12)
    (hd : ∀ d ∈ base, d < 10) :
    (build_ean13_code base).length = 13 ∧
    (∀ d ∈ build_ean13_code base, d < 10) ∧
    (build_ean13_code base).take 12 = base ∧
    (build_ean13_code base).getLast? =
      some ((10 - ean13WeightedSum ((build_ean13_code base).take 12) % 10) % 10) ∧
    ean13WeightedSum (build_ean13_code base) % 10 = 0 := by
  have htake : (build_ean13_code base).take 12 = base := by
    rw [build_ean13_code, ← h12]
    exact List.take_left base [ean13CheckDigit base]
  have hsum : ean13WeightedSum (build_ean13_code base) % 10 = 0 := by
    rw [build_ean13_code, ean13WeightedSum,
      ean13WeightedSumFrom_append (ean13CheckDigit base) base 0]
    rw [ean13CheckDigit]
    have h0 : (0 + base.length) % 2 = 0 := by omega
    rw [if_pos h0]
    have hlt : ean13WeightedSum base % 10 < 10 := Nat.mod_lt _ (by omega)
    rw [ean13WeightedSum]
    omega
  refine ⟨?_, ?_, htake, ?_, hsum⟩
  · simp [build_ean13_code, h12]
  · intro d hdm
    rw [build_ean13_code] at hdm
    rcases List.mem_append.mp hdm with h | h
    · exact hd d h
    · rcases List.mem_singleton.mp h with h
      subst h
      rw [ean13CheckDigit]
      exact Nat.mod_lt _ (by omega)
  · rw [htake, build_ean13_code]
    exact List.getLast?_concat base

/-- Witness for C2 at a concrete 12-digit base. -/
theorem C2_ean13_check_digit_witness :
    (build_ean13_code [0,0,1,2,3,4,5,6,7,8,9,9]).length = 13 ∧
    (∀ d ∈ build_ean13_code [0,0,1,2,3,4,5,6,7,8,9,9], d < 10) ∧
    (build_ean13_code [0,0,1,2,3,4,5,6,7,8,9,9]).take 12 = [0,0,1,2,3,4,5,6,7,8,9,9] ∧
    (build_ean13_code [0,0,1,2,3,4,5,6,7,8,9,9]).getLast? =
      some ((10 - ean13WeightedSum ((build_ean13_code [0,0,1,2,3,4,5,6,7,8,9,9]).take 12) % 10) % 10) ∧
    ean13WeightedSum (build_ean13_code [0,0,1,2,3,4,5,6,7,8,9,9]) % 10 = 0 :=
  C2_ean13_check_digit [0,0,1,2,3,4,5,6,7,8,9,9] (by decide) (by decide)

/-- Claim C3: for every code type (the oracle covers both generators) and
reservation set, the deduplicator makes at most 50 generation attempts (the
returned next oracle index exceeds the starting one by at most 50); an
accepted code is neither reserved nor persisted; and when all 50 candidates
collide it fails (the `ValidationError`, i.e. `GenerationExhausted`) instead
of returning a duplicate. -/
theorem C3_dedup_retry_bound (gen : Nat → String) (persisted reserved : List String)
    (ctr : Nat) :
    (∀ c n, build_unique_product_code gen persisted reserved 50 ctr = some (c, n) →
      c ∉ reserved ∧ c ∉ persisted ∧ n ≤ ctr + 50) ∧
    ((∀ i < 50, gen (ctr + i) ∈ reserved ∨ gen (ctr + i) ∈ persisted) →
      build_unique_product_code gen persisted reserved 50 ctr = none) := by
  constructor
  · intro c n h
    rcases build_unique_some_spec gen persisted reserved 50 ctr c n h with ⟨a, b, _, e⟩
    exact ⟨a, b, e⟩
  · exact build_unique_none_of_collide gen persisted reserved 50 ctr

/-- Witness for C3: a fresh candidate is accepted on the first attempt, and
an oracle colliding on all 50 attempts exhausts the bound. -/
theorem C3_dedup_retry_bound_witness :
    ("A" ∉ (["B"] : List String) ∧ "A" ∉ (["C"] : List String) ∧ 1 ≤ 0 + 50) ∧
    build_unique_product_code (fun _ => "B") ["C"] ["B"] 50 0 = none :=
  ⟨(C3_dedup_retry_bound (fun _ => "A") ["C"] ["B"] 0).1 "A" 1 (by decide),
   (C3_dedup_retry_bound (fun _ => "B") ["C"] ["B"] 0).2 (fun i _ => Or.inl (by decide))⟩

/-- Counterexample to claim C4 as stated: a user-supplied code (here " X ",
trimmed to "X") that collides with a persisted code but with nothing
reserved in the batch is NOT replaced - the formset accepts it as-is, because
`ProductCodeInlineFormSet.clean` only tests membership in `used_codes`,
never in storage. -/
theorem C4_persisted_collision_kept :
    ("X" ∈ (["X"] : List String)) ∧
    ProductCodeInlineFormSet_clean (fun _ => "G") ["X"]
        [⟨false, " X ", "barcode"⟩] = some (["X"], ["X"]) :=
  ⟨by decide, by decide⟩

/-- Claim C4 (amended): in the admin batch edit, a user-supplied code is
trimmed of surrounding whitespace and accepted as-is when it is non-empty
and not reserved earlier in the same batch - even when it matches a
persisted code; only a collision with a code already reserved in the batch
(or an empty code) makes the formset silently substitute a freshly generated
code, which is then neither reserved nor persisted. -/
theorem C4_batch_repair (gen : Nat → String) (persisted : List String)
    (r : FormRow) (rs : List FormRow) (used : List String) (ctr : Nat)
    (codes usedF : List String)
    (hdel : r.delete = false)
    (hne : pyStrip r.code ≠ "")
    (hres : formsetCleanGo gen persisted (r :: rs) used ctr = some (codes, usedF)) :
    ∃ c rest, codes = c :: rest ∧
      (pyStrip r.code ∉ used → c = pyStrip r.code) ∧
      (pyStrip r.code ∈ used → c ∉ used ∧ c ∉ persisted) := by
  simp only [formsetCleanGo, hdel, Bool.false_eq_true, if_false] at hres
  by_cases hu : pyStrip r.code ∈ used
  · rw [if_pos (Or.inr hu)] at hres
    rcases hgen : build_unique_product_code gen persisted used 50 ctr with _ | ⟨c, ctr1⟩
    · simp only [hgen] at hres
      exact Option.noConfusion hres
    · simp only [hgen] at hres
      rcases hrec : formsetCleanGo gen persisted rs (c :: used) ctr1 with _ | ⟨codes1, usedF1⟩
      · simp only [hrec] at hres
        exact Option.noConfusion hres
      · simp only [hrec, Option.some.injEq, Prod.mk.injEq] at hres
        rcases hres with ⟨h1, _⟩
        rcases build_unique_some_spec gen persisted used 50 ctr c ctr1 hgen with ⟨a, b, _, _⟩
        exact ⟨c, codes1, h1.symm, fun hn => absurd hu hn, fun _ => ⟨a, b⟩⟩
  · rw [if_neg (by simp [hne, hu])] at hres
    rcases hrec : formsetCleanGo gen persisted rs (pyStrip r.code :: used) ctr
        with _ | ⟨codes1, usedF1⟩
    · simp only [hrec] at hres
      exact Option.noConfusion hres
    · simp only [hrec, Option.some.injEq, Prod.mk.injEq] at hres
      rcases hres with ⟨h1, _⟩
      exact ⟨pyStrip r.code, codes1, h1.symm, fun _ => rfl, fun hu2 => absurd hu2 hu⟩

/-- Witness for C4 (amended) at a concrete batch: the kept user code. -/
theorem C4_batch_repair_witness :
    ∃ c rest, (["Y"] : List String) = c :: rest ∧
      (pyStrip " Y " ∉ (["Z"] : List String) → c = pyStrip " Y ") ∧
      (pyStrip " Y " ∈ (["Z"] : List String) → c ∉ (["Z"] : List String) ∧ c ∉ ([] : List String)) :=
  C4_batch_repair (fun _ => "G") [] ⟨false, " Y ", ""⟩ [] ["Z"] 0 ["Y"] ["Y", "Z"]
    (by decide) (by decide) (by decide)

/-- Claim C5: a successful formset clean over a batch of rows yields pairwise
distinct codes, and the final reservation set is exactly the set of accepted
codes (each accepted code having been added before the next row was
processed - the fold invariant `formsetCleanGo_spec`). -/
theorem C5_batch_codes_distinct (gen : Nat → String) (persisted : List String)
    (rows : List FormRow) (codes usedF : List String)
    (h : ProductCodeInlineFormSet_clean gen persisted rows = some (codes, usedF)) :
    codes.Pairwise (· ≠ ·) ∧ (∀ x, x ∈ usedF ↔ x ∈ codes) := by
  rcases formsetCleanGo_spec gen persisted rows [] 0 codes usedF h with ⟨_, h2, h3⟩
  refine ⟨h2, fun x => ?_⟩
  rw [h3 x]
  simp

/-- Witness for C5 at a concrete batch with an intra-batch duplicate. -/
theorem C5_batch_codes_distinct_witness :
    (["X", "G0"] : List String).Pairwise (· ≠ ·) ∧
    (∀ x, x ∈ (["G0", "X"] : List String) ↔ x ∈ (["X", "G0"] : List String)) :=
  C5_batch_codes_distinct (fun n => if n = 0 then "G0" else "G1") []
    [⟨false, "X", ""⟩, ⟨false, " X ", ""⟩] ["X", "G0"] ["G0", "X"] (by decide)

/-! ## Scan-flow helper lemmas -/

/-- A list whose head (if any) falsifies `p` is fixed by `dropWhile p`. -/
theorem dropWhile_eq_self_of_head (p : Char → Bool) (m : List Char)
    (h : ∀ a, m.head? = some a → p a = false) : m.dropWhile p = m := by
  cases m with
  | nil => rfl
  | cons x xs =>
    rw [List.dropWhile_cons, if_neg (by simp [h x rfl])]

/-- The last element survives `dropWhile` when the result is non-empty. -/
theorem getLast?_dropWhile_of (p : Char → Bool) :
    ∀ (m : List Char) (a : Char),
      (m.dropWhile p).getLast? = some a → m.getLast? = some a := by
  intro m
  induction m with
  | nil => intro a h; simp [List.dropWhile] at h
  | cons x xs ih =>
    intro a h
    rw [List.dropWhile_cons] at h
    by_cases hx : p x = true
    · rw [if_pos hx] at h
      have h2 := ih a h
      cases xs with
      | nil => simp at h2
      | cons y ys => rw [List.getLast?_cons_cons]; exact h2
    · rw [if_neg hx] at h
      exact h

/-- The head of a `dropWhile p` result falsifies `p`. -/
theorem head?_dropWhile_false (p : Char → Bool) (l : List Char) (a : Char)
    (h : (l.dropWhile p).head? = some a) : p a = false := by
  have h2 := List.head?_dropWhile_not p l
  rw [h] at h2
  exact h2

/-- Stripping is idempotent: a stripped string strips to itself. -/
theorem pyStrip_idem (s : String) : pyStrip (pyStrip s) = pyStrip s := by
  unfold pyStrip
  congr 1
  have h1 : (((s.data.dropWhile Char.isWhitespace).reverse.dropWhile
      Char.isWhitespace).reverse).dropWhile Char.isWhitespace =
      ((s.data.dropWhile Char.isWhitespace).reverse.dropWhile
      Char.isWhitespace).reverse := by
    refine dropWhile_eq_self_of_head Char.isWhitespace _ (fun a ha => ?_)
    rw [List.head?_reverse] at ha
    have h2 := getLast?_dropWhile_of Char.isWhitespace
      (s.data.dropWhile Char.isWhitespace).reverse a ha
    rw [List.getLast?_reverse] at h2
    exact head?_dropWhile_false Char.isWhitespace s.data a h2
  rw [h1, List.reverse_reverse, List.dropWhile_idempotent]

/-- Characterisation of a passing `ProductScanSerializer` validation. -/
theorem validateScan_eq_some (req : ScanRequest) (code : String)
    (h : validateScan req = some code) :
    code = pyStrip req.code ∧ pyStrip req.code ≠ "" ∧
    req.storeId.isSome = req.price.isSome ∧ ¬ req.price.getD 1 < 1 := by
  unfold validateScan at h
  by_cases h1 : pyStrip req.code = ""
  · rw [if_pos h1] at h; exact Option.noConfusion h
  · rw [if_neg h1] at h
    by_cases h2 : req.storeId.isSome ≠ req.price.isSome
    · rw [if_pos h2] at h; exact Option.noConfusion h
    · rw [if_neg h2] at h
      by_cases h3 : req.price.getD 1 < 1
      · rw [if_pos h3] at h; exact Option.noConfusion h
      · rw [if_neg h3] at h
        exact ⟨(Option.some.inj h).symm, h1, not_ne_iff.mp h2, h3⟩

/-- A bare-code follow-up request passes validation with the same code. -/
theorem validateScan_codeOnly (code : String) (hfix : pyStrip code = code)
    (hne : code ≠ "") : validateScan (codeOnlyRequest code) = some code := by
  unfold validateScan codeOnlyRequest
  simp only [hfix]
  rw [if_neg hne]
  simp

/-- The price upsert touches only the price table. -/
theorem upsertPrice_frame (db : DB) (pid sid : Nat) (p : Int) :
    (upsertPrice db pid sid p).codes = db.codes ∧
    (upsertPrice db pid sid p).products = db.products ∧
    (upsertPrice db pid sid p).categories = db.categories ∧
    (upsertPrice db pid sid p).stores = db.stores := by
  unfold upsertPrice
  split <;> simp

/-- The price phase of the scan touches only the price table. -/
theorem scanPricePart_frame (req : ScanRequest) (db : DB) (pid : Nat)
    (pc cc : Bool) (code : String) :
    (scanPricePart req db pid pc cc code).db.codes = db.codes ∧
    (scanPricePart req db pid pc cc code).db.products = db.products := by
  unfold scanPricePart
  rcases req.storeId with _ | sid
  · simp
  · rcases req.price with _ | p
    · simp
    · dsimp only
      by_cases hs : sid ∈ db.stores
      · rw [if_pos hs]
        exact ⟨(upsertPrice_frame db pid sid p).1, (upsertPrice_frame db pid sid p).2.1⟩
      · rw [if_neg hs]
        exact ⟨rfl, rfl⟩

/-- `get_or_create` touches only the product table. -/
theorem getOrCreateProduct_codes (db : DB) (cid : Nat) (nm br descr : String) :
    (getOrCreateProduct db cid nm br descr).2.2.codes = db.codes := by
  unfold getOrCreateProduct
  split <;> rfl

/-- A missed lookup means the code value is absent from the code column. -/
theorem code_notMem_of_findCode_none (db : DB) (code : String)
    (h : findCode db code = none) : code ∉ db.codes.map (fun r => r.code) := by
  unfold findCode at h
  rw [List.find?_eq_none] at h
  intro hmem
  rcases List.mem_map.mp hmem with ⟨r, hr, hrc⟩
  exact h r hr (by simp [hrc])

/-- Looking up a freshly appended code row finds exactly that row when the
older rows missed. -/
theorem find?_append_self (codes : List CodeRow) (code : String) (row : CodeRow)
    (hmiss : codes.find? (fun r => r.code == code) = none) (hrow : row.code = code) :
    (codes ++ [row]).find? (fun r => r.code == code) = some row := by
  rw [List.find?_append, hmiss]
  simp [List.find?_cons, hrow]

/-- Counterexample to claim C1 as stated: an unknown code scanned with a
category reference and a non-empty name whose (category, name, brand) triple
already names a persisted product does NOT create a Product -
`get_or_create` reuses the existing row (`product_created = false`, the
product table is unchanged), although exactly one ProductCode is created. -/
theorem C1_product_reuse_counterexample :
    (findCode ⟨[1], [], [⟨1, 1, "Atun", "", ""⟩], [], [], 2⟩ "998877" = none) ∧
    ProductScanView_post ⟨"998877", none, some 1, some "Atun", none, none, none, none⟩
        ⟨[1], [], [⟨1, 1, "Atun", "", ""⟩], [], [], 2⟩ =
      ⟨.ok ⟨false, false, true, false, "998877", 1⟩,
       ⟨[1], [], [⟨1, 1, "Atun", "", ""⟩], [⟨"998877", "barcode", 1⟩], [], 2⟩⟩ :=
  ⟨by decide, by decide⟩

/-- Claim C1 (amended): for every valid scan request whose stripped code
matches no persisted ProductCode: lacking a (truthy) category reference or a
non-empty stripped name fails with `InsufficientDataForCreation` leaving the
state untouched; supplying both with an existing category creates exactly one
ProductCode bound to the target product, creates the Product only when no row
with the same (category, name, brand) triple exists (otherwise the existing
row is reused and the product table is unchanged), and a subsequent scan of
the same code returns `matched = true`. -/
theorem C1_scan_unknown_code (req : ScanRequest) (db : DB) (code : String)
    (hv : validateScan req = some code)
    (hmiss : findCode db code = none) :
    ((req.categoryId.getD 0 = 0 ∨ pyStrip (req.name.getD "") = "") →
      ProductScanView_post req db = ⟨.err .insufficientData, db⟩) ∧
    (∀ cid, req.categoryId = some cid → cid ≠ 0 →
      pyStrip (req.name.getD "") ≠ "" → cid ∈ db.categories →
      ∃ prod : ProductRow,
        (ProductScanView_post req db).db.codes =
          db.codes ++ [⟨code, req.codeType.getD "barcode", prod.pid⟩] ∧
        prod.categoryId = cid ∧
        prod.name = pyStrip (req.name.getD "") ∧
        prod.brand = pyStrip (req.brand.getD "") ∧
        ((∃ r ∈ db.products, r.categoryId = cid ∧ r.name = pyStrip (req.name.getD "") ∧
            r.brand = pyStrip (req.brand.getD "")) →
          (ProductScanView_post req db).db.products = db.products) ∧
        ((¬ ∃ r ∈ db.products, r.categoryId = cid ∧ r.name = pyStrip (req.name.getD "") ∧
            r.brand = pyStrip (req.brand.getD "")) →
          (ProductScanView_post req db).db.products = db.products ++ [prod]) ∧
        (ProductScanView_post (codeOnlyRequest code)
            (ProductScanView_post req db).db).result =
          .ok ⟨true, false, false, false, code, prod.pid⟩) := by
  have hcfix : pyStrip code = code := by
    rcases validateScan_eq_some req code hv with ⟨hc, _, _, _⟩
    rw [hc]
    exact pyStrip_idem req.code
  have hcne : code ≠ "" := by
    rcases validateScan_eq_some req code hv with ⟨hc, hne, _, _⟩
    rw [hc]
    exact hne
  have hmiss0 : db.codes.find? (fun r => r.code == code) = none := hmiss
  constructor
  · intro h
    simp only [ProductScanView_post, scanWithCommit, hv, hmiss]
    rw [if_pos h]
  · intro cid hcid h0 hnm hcat
    rcases hfind : db.products.find? (fun r => r.categoryId == cid &&
        r.name == pyStrip (req.name.getD "") && r.brand == pyStrip (req.brand.getD ""))
        with _ | r
    · -- no product with the triple exists: a fresh product row is created
      refine ⟨⟨db.nextProductId, cid, pyStrip (req.name.getD ""),
        pyStrip (req.brand.getD ""), pyStrip (req.description.getD "")⟩, ?_⟩
      have hmain : ProductScanView_post req db =
          scanPricePart req
            { db with
                products := db.products ++ [⟨db.nextProductId, cid,
                  pyStrip (req.name.getD ""), pyStrip (req.brand.getD ""),
                  pyStrip (req.description.getD "")⟩],
                nextProductId := db.nextProductId + 1,
                codes := db.codes ++ [⟨code, req.codeType.getD "barcode", db.nextProductId⟩] }
            db.nextProductId true true code := by
        simp only [ProductScanView_post, scanWithCommit, hv, hmiss, hcid, Option.getD_some]
        rw [if_neg (by push_neg; exact ⟨h0, hnm⟩), if_pos hcat]
        simp only [getOrCreateProduct, hfind]
        rw [if_neg (code_notMem_of_findCode_none db code hmiss)]
      rw [hmain]
      have hframe := scanPricePart_frame req
        { db with
            products := db.products ++ [⟨db.nextProductId, cid,
              pyStrip (req.name.getD ""), pyStrip (req.brand.getD ""),
              pyStrip (req.description.getD "")⟩],
            nextProductId := db.nextProductId + 1,
            codes := db.codes ++ [⟨code, req.codeType.getD "barcode", db.nextProductId⟩] }
        db.nextProductId true true code
      refine ⟨hframe.1, rfl, rfl, rfl, ?_, fun _ => hframe.2, ?_⟩
      · intro hex
        exfalso
        rcases hex with ⟨r1, hr1, ha, hb, hc⟩
        have := List.find?_eq_none.mp hfind r1 hr1
        simp [ha, hb, hc] at this
      · simp only [ProductScanView_post, scanWithCommit,
          validateScan_codeOnly code hcfix hcne]
        have hlook : findCode (scanPricePart req
            { db with
                products := db.products ++ [⟨db.nextProductId, cid,
                  pyStrip (req.name.getD ""), pyStrip (req.brand.getD ""),
                  pyStrip (req.description.getD "")⟩],
                nextProductId := db.nextProductId + 1,
                codes := db.codes ++ [⟨code, req.codeType.getD "barcode", db.nextProductId⟩] }
            db.nextProductId true true code).db code =
            some ⟨code, req.codeType.getD "barcode", db.nextProductId⟩ := by
          unfold findCode
          rw [hframe.1]
          exact find?_append_self db.codes code _ hmiss0 rfl
        rw [hlook]
        simp [scanPricePart, codeOnlyRequest]
    · -- a product with the triple exists: it is reused, no product created
      have hr3 : r.categoryId = cid ∧ r.name = pyStrip (req.name.getD "") ∧
          r.brand = pyStrip (req.brand.getD "") := by
        have := List.find?_some hfind
        simp only [Bool.and_eq_true, beq_iff_eq] at this
        exact ⟨this.1.1, this.1.2, this.2⟩
      have hmem : r ∈ db.products := List.mem_of_find?_eq_some hfind
      refine ⟨r, ?_⟩
      have hmain : ProductScanView_post req db =
          scanPricePart req
            { db with codes := db.codes ++ [⟨code, req.codeType.getD "barcode", r.pid⟩] }
            r.pid false true code := by
        simp only [ProductScanView_post, scanWithCommit, hv, hmiss, hcid, Option.getD_some]
        rw [if_neg (by push_neg; exact ⟨h0, hnm⟩), if_pos hcat]
        simp only [getOrCreateProduct, hfind]
        rw [if_neg (code_notMem_of_findCode_none db code hmiss)]
      rw [hmain]
      have hframe := scanPricePart_frame req
        { db with codes := db.codes ++ [⟨code, req.codeType.getD "barcode", r.pid⟩] }
        r.pid false true code
      refine ⟨hframe.1, hr3.1, hr3.2.1, hr3.2.2, fun _ => hframe.2, ?_, ?_⟩
      · intro hnone
        exact absurd ⟨r, hmem, hr3.1, hr3.2.1, hr3.2.2⟩ hnone
      · simp only [ProductScanView_post, scanWithCommit,
          validateScan_codeOnly code hcfix hcne]
        have hlook : findCode (scanPricePart req
            { db with codes := db.codes ++ [⟨code, req.codeType.getD "barcode", r.pid⟩] }
            r.pid false true code).db code =
            some ⟨code, req.codeType.getD "barcode", r.pid⟩ := by
          unfold findCode
          rw [hframe.1]
          exact find?_append_self db.codes code _ hmiss0 rfl
        rw [hlook]
        simp [scanPricePart, codeOnlyRequest]

/-- Witness for C1 (amended): scanning an unknown code with category and name
on a store with the category but no products. -/
theorem C1_scan_unknown_code_witness :
    (((⟨"55", none, some 1, some "Pan", none, none, none, none⟩ :
        ScanRequest).categoryId.getD 0 = 0 ∨
      pyStrip ((some "Pan").getD "") = "") →
      ProductScanView_post ⟨"55", none, some 1, some "Pan", none, none, none, none⟩
        ⟨[1], [], [], [], [], 1⟩ =
        ⟨.err .insufficientData, ⟨[1], [], [], [], [], 1⟩⟩) ∧
    (∀ cid, (some 1 : Option Nat) = some cid → cid ≠ 0 →
      pyStrip ((some "Pan").getD "") ≠ "" → cid ∈ [1] →
      ∃ prod : ProductRow,
        (ProductScanView_post ⟨"55", none, some 1, some "Pan", none, none, none, none⟩
          ⟨[1], [], [], [], [], 1⟩).db.codes =
          [] ++ [⟨"55", (none : Option String).getD "barcode", prod.pid⟩] ∧
        prod.categoryId = cid ∧
        prod.name = pyStrip ((some "Pan").getD "") ∧
        prod.brand = pyStrip ((none : Option String).getD "") ∧
        ((∃ r ∈ ([] : List ProductRow), r.categoryId = cid ∧
            r.name = pyStrip ((some "Pan").getD "") ∧
            r.brand = pyStrip ((none : Option String).getD "")) →
          (ProductScanView_post ⟨"55", none, some 1, some "Pan", none, none, none, none⟩
            ⟨[1], [], [], [], [], 1⟩).db.products = []) ∧
        ((¬ ∃ r ∈ ([] : List ProductRow), r.categoryId = cid ∧
            r.name = pyStrip ((some "Pan").getD "") ∧
            r.brand = pyStrip ((none : Option String).getD "")) →
          (ProductScanView_post ⟨"55", none, some 1, some "Pan", none, none, none, none⟩
            ⟨[1], [], [], [], [], 1⟩).db.products = [] ++ [prod]) ∧
        (ProductScanView_post (codeOnlyRequest "55")
            (ProductScanView_post ⟨"55", none, some 1, some "Pan", none, none, none, none⟩
              ⟨[1], [], [], [], [], 1⟩).db).result =
          .ok ⟨true, false, false, false, "55", prod.pid⟩) :=
  C1_scan_unknown_code ⟨"55", none, some 1, some "Pan", none, none, none, none⟩
    ⟨[1], [], [], [], [], 1⟩ "55" (by decide) (by decide)

/-- Counterexample to claim C6 as stated: a scan whose code matches an
existing ProductCode but whose (store_id, price) pair references a
nonexistent store answers with the `StoreNotFound` error - the response
carries no `matched = true` - although, as always, no rows are created. -/
theorem C6_store_error_counterexample :
    (findCode ⟨[1], [7], [⟨1, 1, "Atun", "", ""⟩], [⟨"750", "barcode", 1⟩], [], 2⟩ "750" =
      some ⟨"750", "barcode", 1⟩) ∧
    (ProductScanView_post ⟨"750", none, none, none, none, none, some 9, some 100⟩
        ⟨[1], [7], [⟨1, 1, "Atun", "", ""⟩], [⟨"750", "barcode", 1⟩], [], 2⟩).result =
      .err .storeNotFound :=
  ⟨by decide, by decide⟩

/-- Claim C6 (amended): for every valid scan request whose stripped code
matches an existing ProductCode, the scan creates no Product row and no
ProductCode row; when the optional store reference resolves (or no pair was
sent) the response is `matched = true`, `product_created = false`,
`code_created = false`, with at most a price upsert; an unresolvable store
reference yields `StoreNotFound` instead. -/
theorem C6_scan_matched (req : ScanRequest) (db : DB) (code : String) (row : CodeRow)
    (hv : validateScan req = some code)
    (hfound : findCode db code = some row) :
    (ProductScanView_post req db).db.codes = db.codes ∧
    (ProductScanView_post req db).db.products = db.products ∧
    (req.storeId = none →
      ProductScanView_post req db =
        ⟨.ok ⟨true, false, false, false, code, row.productId⟩, db⟩) ∧
    (∀ sid p, req.storeId = some sid → req.price = some p → sid ∈ db.stores →
      ProductScanView_post req db =
        ⟨.ok ⟨true, false, false, true, code, row.productId⟩,
          upsertPrice db row.productId sid p⟩) ∧
    (∀ sid, req.storeId = some sid → sid ∉ db.stores →
      ProductScanView_post req db = ⟨.err .storeNotFound, db⟩) := by
  have hred : ProductScanView_post req db = scanPricePart req db row.productId false false code := by
    simp only [ProductScanView_post, scanWithCommit, hv, hfound]
  rw [hred]
  have hframe := scanPricePart_frame req db row.productId false false code
  refine ⟨hframe.1, hframe.2, ?_, ?_, ?_⟩
  · intro hnone
    have hpnone : req.price = none := by
      rcases validateScan_eq_some req code hv with ⟨_, _, hsp, _⟩
      rw [hnone] at hsp
      rcases hp : req.price with _ | p
      · rfl
      · rw [hp] at hsp; simp at hsp
    simp [scanPricePart, hnone, hpnone]
  · intro sid p hsid hp hmem
    simp [scanPricePart, hsid, hp, hmem]
  · intro sid hsid hmem
    have hp : ∃ p, req.price = some p := by
      rcases validateScan_eq_some req code hv with ⟨_, _, hsp, _⟩
      rw [hsid] at hsp
      rcases hq : req.price with _ | p
      · rw [hq] at hsp; simp at hsp
      · exact ⟨p, rfl⟩
    rcases hp with ⟨p, hp⟩
    simp [scanPricePart, hsid, hp, hmem]

/-- Witness for C6 (amended): a matched scan carrying a resolvable store and
a price. -/
theorem C6_scan_matched_witness :
    (ProductScanView_post ⟨"750", none, none, none, none, none, some 7, some 210⟩
        ⟨[1], [7], [⟨1, 1, "Atun", "", ""⟩], [⟨"750", "barcode", 1⟩], [], 2⟩).db.codes =
      [⟨"750", "barcode", 1⟩] ∧
    (ProductScanView_post ⟨"750", none, none, none, none, none, some 7, some 210⟩
        ⟨[1], [7], [⟨1, 1, "Atun", "", ""⟩], [⟨"750", "barcode", 1⟩], [], 2⟩).db.products =
      [⟨1, 1, "Atun", "", ""⟩] ∧
    (((⟨"750", none, none, none, none, none, some 7, some 210⟩ :
        ScanRequest).storeId = none) →
      ProductScanView_post ⟨"750", none, none, none, none, none, some 7, some 210⟩
          ⟨[1], [7], [⟨1, 1, "Atun", "", ""⟩], [⟨"750", "barcode", 1⟩], [], 2⟩ =
        ⟨.ok ⟨true, false, false, false, "750", 1⟩,
          ⟨[1], [7], [⟨1, 1, "Atun", "", ""⟩], [⟨"750", "barcode", 1⟩], [], 2⟩⟩) ∧
    (∀ sid p, (some 7 : Option Nat) = some sid → (some 210 : Option Int) = some p →
      sid ∈ [7] →
      ProductScanView_post ⟨"750", none, none, none, none, none, some 7, some 210⟩
          ⟨[1], [7], [⟨1, 1, "Atun", "", ""⟩], [⟨"750", "barcode", 1⟩], [], 2⟩ =
        ⟨.ok ⟨true, false, false, true, "750", 1⟩,
          upsertPrice ⟨[1], [7], [⟨1, 1, "Atun", "", ""⟩], [⟨"750", "barcode", 1⟩], [], 2⟩
            1 sid p⟩) ∧
    (∀ sid, (some 7 : Option Nat) = some sid → sid ∉ [7] →
      ProductScanView_post ⟨"750", none, none, none, none, none, some 7, some 210⟩
          ⟨[1], [7], [⟨1, 1, "Atun", "", ""⟩], [⟨"750", "barcode", 1⟩], [], 2⟩ =
        ⟨.err .storeNotFound,
          ⟨[1], [7], [⟨1, 1, "Atun", "", ""⟩], [⟨"750", "barcode", 1⟩], [], 2⟩⟩) :=
  C6_scan_matched ⟨"750", none, none, none, none, none, some 7, some 210⟩
    ⟨[1], [7], [⟨1, 1, "Atun", "", ""⟩], [⟨"750", "barcode", 1⟩], [], 2⟩
    "750" ⟨"750", "barcode", 1⟩ (by decide) (by decide)

/-- Counterexample to claim C10 as stated: when a concurrent writer has
committed the same code between the lookup and the insert (modelled by the
commit-time snapshot holding the code), the scan surfaces the uncaught
uniqueness violation as an error instead of catching it and re-resolving. -/
theorem C10_no_retry_counterexample :
    (findCode ⟨[1], [7], [⟨1, 1, "Atun", "", ""⟩], [⟨"750", "barcode", 1⟩], [], 2⟩ "750X" =
      none) ∧
    ("750X" ∈ ["750", "750X"]) ∧
    (scanWithCommit ⟨"750X", none, some 1, some "Atun", none, none, none, none⟩
        ⟨[1], [7], [⟨1, 1, "Atun", "", ""⟩], [⟨"750", "barcode", 1⟩], [], 2⟩
        ["750", "750X"]).result = .err .integrityError :=
  ⟨by decide, by decide, by decide⟩

/-- Claim C10 (amended): the ProductCode insert of the scan flow is not
guarded - views.py contains no transaction and no try/except around it - so
whenever the commit-time snapshot already holds the scanned code (a
concurrent writer won the race), the scan surfaces `integrityError` to the
caller and inserts nothing; there is no one-shot re-resolve. -/
theorem C10_race_not_retried (req : ScanRequest) (db : DB) (code : String)
    (commitCodes : List String) (cid : Nat)
    (hv : validateScan req = some code)
    (hmiss : findCode db code = none)
    (hcid : req.categoryId = some cid) (h0 : cid ≠ 0)
    (hnm : pyStrip (req.name.getD "") ≠ "")
    (hcat : cid ∈ db.categories)
    (hrace : code ∈ commitCodes) :
    (scanWithCommit req db commitCodes).result = .err .integrityError ∧
    (scanWithCommit req db commitCodes).db.codes = db.codes := by
  simp only [scanWithCommit, hv, hmiss, hcid, Option.getD_some]
  rw [if_neg (by push_neg; exact ⟨h0, hnm⟩), if_pos hcat, if_pos hrace]
  exact ⟨rfl, getOrCreateProduct_codes db cid (pyStrip (req.name.getD ""))
    (pyStrip (req.brand.getD "")) (pyStrip (req.description.getD ""))⟩

/-- Witness for C10 (amended) at the concrete race of the counterexample
scenario with a different code. -/
theorem C10_race_not_retried_witness :
    (scanWithCommit ⟨"42", none, some 1, some "Sal", none, none, none, none⟩
        ⟨[1], [], [], [], [], 1⟩ ["42"]).result = .err .integrityError ∧
    (scanWithCommit ⟨"42", none, some 1, some "Sal", none, none, none, none⟩
        ⟨[1], [], [], [], [], 1⟩ ["42"]).db.codes = [] :=
  C10_race_not_retried ⟨"42", none, some 1, some "Sal", none, none, none, none⟩
    ⟨[1], [], [], [], [], 1⟩ "42" ["42"] 1
    (by decide) (by decide) (by decide) (by decide) (by decide) (by decide) (by decide)

/-! ## Aggregator helper lemmas -/

/-- In a price-sorted non-empty list, every element is at most the last. -/
theorem sorted_le_getLastD :
    ∀ (rest : List PriceEntry) (b : PriceEntry),
      List.Sorted (fun a c : PriceEntry => a.price ≤ c.price) (b :: rest) →
      ∀ p ∈ b :: rest, p.price ≤ (rest.getLastD b).price := by
  intro rest
  induction rest with
  | nil =>
    intro b _ p hp
    rcases List.mem_singleton.mp hp with h
    subst h
    simp [List.getLastD]
  | cons c rest1 ih =>
    intro b hs p hp
    rw [List.getLastD_cons]
    have hpair := List.pairwise_cons.mp hs
    have hs1 : List.Sorted (fun a c : PriceEntry => a.price ≤ c.price) (c :: rest1) :=
      hpair.2
    have hbc : b.price ≤ c.price := hpair.1 c (by simp)
    rcases List.mem_cons.mp hp with h | h
    · subst h
      exact le_trans hbc (ih c hs1 c (by simp))
    · exact ih c hs1 p h

/-- Counterexample to claim C8 as stated: the empty string is a supplied
`active` value that is neither a recognised true token nor a recognised
false token, yet `list_offers` does not fail - the view maps it to the
default true via `(request.query_params.get('active') or 'true')`. -/
theorem C8_empty_active_counterexample :
    ("" ∉ activeTrueTokens) ∧ ("" ∉ activeFalseTokens) ∧
    OfferListView_get (some "") none none none none 0
        [⟨1, 1, 1, 1, "Yogurt", -5, 5⟩] = .ok [⟨1, 1, 1, 1, "Yogurt", -5, 5⟩] :=
  ⟨by decide, by decide, by decide⟩

/-- Claim C8 (amended): `list_offers` treats an absent - or empty - `active`
value as true; a recognised true token (after stripping and lowering) keeps
exactly the offers whose window contains now, inclusive at both ends; a
recognised false token keeps every offer; any other non-empty value fails
with `InvalidFilterValue`. -/
theorem C8_list_offers_active (v : String) (now : Int) (offers : List OfferRow) :
    (OfferListView_get none none none none none now offers =
      .ok (offers.filter (fun o => decide (o.startsAt ≤ now) && decide (now ≤ o.endsAt)))) ∧
    (OfferListView_get (some "") none none none none now offers =
      .ok (offers.filter (fun o => decide (o.startsAt ≤ now) && decide (now ≤ o.endsAt)))) ∧
    (∀ o, o ∈ offers.filter (fun o => decide (o.startsAt ≤ now) && decide (now ≤ o.endsAt)) ↔
      o ∈ offers ∧ o.startsAt ≤ now ∧ now ≤ o.endsAt) ∧
    (v ≠ "" → pyLower (pyStrip v) ∈ activeTrueTokens →
      OfferListView_get (some v) none none none none now offers =
        .ok (offers.filter (fun o => decide (o.startsAt ≤ now) && decide (now ≤ o.endsAt)))) ∧
    (v ≠ "" → pyLower (pyStrip v) ∈ activeFalseTokens →
      OfferListView_get (some v) none none none none now offers = .ok offers) ∧
    (v ≠ "" → pyLower (pyStrip v) ∉ activeTrueTokens →
      pyLower (pyStrip v) ∉ activeFalseTokens →
      OfferListView_get (some v) none none none none now offers =
        .err .invalidFilterValue) := by
  have hdisj : ∀ x ∈ activeFalseTokens, x ∉ activeTrueTokens := by decide
  refine ⟨?_, ?_, ?_, ?_, ?_, ?_⟩
  · simp only [OfferListView_get]
    rw [if_pos (show pyLower (pyStrip "true") ∈ activeTrueTokens by decide)]
    simp [applyOfferNarrowing]
  · simp only [OfferListView_get, if_pos rfl, if_true]
    rw [if_pos (show pyLower (pyStrip "true") ∈ activeTrueTokens by decide)]
    simp [applyOfferNarrowing]
  · intro o
    simp [List.mem_filter]
  · intro hne htok
    simp only [OfferListView_get]
    simp only [if_neg hne]
    rw [if_pos htok]
    simp [applyOfferNarrowing]
  · intro hne htok
    simp only [OfferListView_get]
    simp only [if_neg hne]
    rw [if_neg (hdisj _ htok), if_pos htok]
    simp [applyOfferNarrowing]
  · intro hne ht hf
    simp only [OfferListView_get]
    simp only [if_neg hne]
    rw [if_neg ht, if_neg hf]

/-- Witness for C8 (amended) at the value " NO " (a false token after
normalisation) over a two-offer list straddling now = 0. -/
theorem C8_list_offers_active_witness :
    (OfferListView_get none none none none none 0
        [⟨1, 1, 1, 1, "Yogurt", -5, 5⟩, ⟨2, 1, 1, 1, "Yogurt", -10, -5⟩] =
      .ok ([⟨1, 1, 1, 1, "Yogurt", -5, 5⟩, ⟨2, 1, 1, 1, "Yogurt", -10, -5⟩].filter
        (fun o => decide (o.startsAt ≤ (0 : Int)) && decide ((0 : Int) ≤ o.endsAt)))) ∧
    (OfferListView_get (some "") none none none none 0
        [⟨1, 1, 1, 1, "Yogurt", -5, 5⟩, ⟨2, 1, 1, 1, "Yogurt", -10, -5⟩] =
      .ok ([⟨1, 1, 1, 1, "Yogurt", -5, 5⟩, ⟨2, 1, 1, 1, "Yogurt", -10, -5⟩].filter
        (fun o => decide (o.startsAt ≤ (0 : Int)) && decide ((0 : Int) ≤ o.endsAt)))) ∧
    (∀ o, o ∈ ([⟨1, 1, 1, 1, "Yogurt", -5, 5⟩, ⟨2, 1, 1, 1, "Yogurt", -10, -5⟩] :
        List OfferRow).filter
        (fun o => decide (o.startsAt ≤ (0 : Int)) && decide ((0 : Int) ≤ o.endsAt)) ↔
      o ∈ ([⟨1, 1, 1, 1, "Yogurt", -5, 5⟩, ⟨2, 1, 1, 1, "Yogurt", -10, -5⟩] :
        List OfferRow) ∧ o.startsAt ≤ 0 ∧ 0 ≤ o.endsAt) ∧
    (" NO " ≠ "" → pyLower (pyStrip " NO ") ∈ activeTrueTokens →
      OfferListView_get (some " NO ") none none none none 0
          [⟨1, 1, 1, 1, "Yogurt", -5, 5⟩, ⟨2, 1, 1, 1, "Yogurt", -10, -5⟩] =
        .ok ([⟨1, 1, 1, 1, "Yogurt", -5, 5⟩, ⟨2, 1, 1, 1, "Yogurt", -10, -5⟩].filter
          (fun o => decide (o.startsAt ≤ (0 : Int)) && decide ((0 : Int) ≤ o.endsAt)))) ∧
    (" NO " ≠ "" → pyLower (pyStrip " NO ") ∈ activeFalseTokens →
      OfferListView_get (some " NO ") none none none none 0
          [⟨1, 1, 1, 1, "Yogurt", -5, 5⟩, ⟨2, 1, 1, 1, "Yogurt", -10, -5⟩] =
        .ok [⟨1, 1, 1, 1, "Yogurt", -5, 5⟩, ⟨2, 1, 1, 1, "Yogurt", -10, -5⟩]) ∧
    (" NO " ≠ "" → pyLower (pyStrip " NO ") ∉ activeTrueTokens →
      pyLower (pyStrip " NO ") ∉ activeFalseTokens →
      OfferListView_get (some " NO ") none none none none 0
          [⟨1, 1, 1, 1, "Yogurt", -5, 5⟩, ⟨2, 1, 1, 1, "Yogurt", -10, -5⟩] =
        .err .invalidFilterValue) :=
  C8_list_offers_active " NO " 0
    [⟨1, 1, 1, 1, "Yogurt", -5, 5⟩, ⟨2, 1, 1, 1, "Yogurt", -10, -5⟩]

/-- Claim C7: `compare_prices` of a non-empty price set returns the store and
price of a cheapest entry as `best_option`, of a most expensive entry as
`most_expensive_option`, and their non-negative difference as the savings;
an empty price set yields null options; and on
{Store A: 2.25, Store B: 1.05, Store C: 1.80} (cents) it returns
best {Store B, 105}, most expensive {Store A, 225}, savings 120. -/
theorem C7_compare_prices (prices : List PriceEntry) (h : prices ≠ []) :
    compare_prices [] = ⟨none, none, none⟩ ∧
    compare_prices [⟨"Store A", 225⟩, ⟨"Store B", 105⟩, ⟨"Store C", 180⟩] =
      ⟨some ⟨"Store B", 105⟩, some ⟨"Store A", 225⟩, some 120⟩ ∧
    ∃ b w, compare_prices prices = ⟨some b, some w, some (w.price - b.price)⟩ ∧
      b ∈ prices ∧ w ∈ prices ∧
      (∀ p ∈ prices, b.price ≤ p.price ∧ p.price ≤ w.price) ∧
      0 ≤ w.price - b.price := by
  refine ⟨by decide, by decide, ?_⟩
  haveI : IsTotal PriceEntry (fun a b : PriceEntry => a.price ≤ b.price) :=
    ⟨fun a b => le_total a.price b.price⟩
  haveI : IsTrans PriceEntry (fun a b : PriceEntry => a.price ≤ b.price) :=
    ⟨fun _ _ _ h1 h2 => le_trans h1 h2⟩
  have hperm := List.perm_insertionSort (fun a b : PriceEntry => a.price ≤ b.price) prices
  have hsorted := List.sorted_insertionSort (fun a b : PriceEntry => a.price ≤ b.price) prices
  rcases hord : List.insertionSort (fun a b : PriceEntry => a.price ≤ b.price) prices
      with _ | ⟨b, rest⟩
  · exfalso
    rw [hord] at hperm
    exact h (List.Perm.nil_eq hperm).symm
  · rw [hord] at hperm hsorted
    refine ⟨b, rest.getLastD b, ?_, ?_, ?_, ?_, ?_⟩
    · simp only [compare_prices, hord]
    · exact hperm.subset (by simp)
    · exact hperm.subset (List.getLastD_mem_cons rest b)
    · intro p hp
      have hpmem : p ∈ b :: rest := hperm.mem_iff.mpr hp
      constructor
      · rcases List.mem_cons.mp hpmem with h1 | h1
        · subst h1; exact le_refl _
        · exact (List.pairwise_cons.mp hsorted).1 p h1
      · exact sorted_le_getLastD rest b hsorted p hpmem
    · have hb : b.price ≤ (rest.getLastD b).price :=
        sorted_le_getLastD rest b hsorted b (by simp)
      omega

/-- Witness for C7 at the three-store example of the spec. -/
theorem C7_compare_prices_witness :
    compare_prices [] = ⟨none, none, none⟩ ∧
    compare_prices [⟨"Store A", 225⟩, ⟨"Store B", 105⟩, ⟨"Store C", 180⟩] =
      ⟨some ⟨"Store B", 105⟩, some ⟨"Store A", 225⟩, some 120⟩ ∧
    ∃ b w, compare_prices [⟨"Store A", 225⟩, ⟨"Store B", 105⟩, ⟨"Store C", 180⟩] =
        ⟨some b, some w, some (w.price - b.price)⟩ ∧
      b ∈ [⟨"Store A", 225⟩, ⟨"Store B", 105⟩, ⟨"Store C", 180⟩] ∧
      w ∈ [⟨"Store A", 225⟩, ⟨"Store B", 105⟩, ⟨"Store C", 180⟩] ∧
      (∀ p ∈ ([⟨"Store A", 225⟩, ⟨"Store B", 105⟩, ⟨"Store C", 180⟩] : List PriceEntry),
        b.price ≤ p.price ∧ p.price ≤ w.price) ∧
      0 ≤ w.price - b.price :=
  C7_compare_prices [⟨"Store A", 225⟩, ⟨"Store B", 105⟩, ⟨"Store C", 180⟩] (by decide)

/-- Rounding half to even moves a rational by at most one half. -/
theorem abs_roundHalfEven_sub_le (q : ℚ) : |(roundHalfEven q : ℚ) - q| ≤ 1 / 2 := by
  simp only [roundHalfEven]
  have h1 : (⌊q⌋ : ℚ) ≤ q := Int.floor_le q
  have h2 : q < ⌊q⌋ + 1 := Int.lt_floor_add_one q
  by_cases hc1 : q - ⌊q⌋ < 1 / 2
  · rw [if_pos hc1, abs_le]
    constructor <;> linarith
  · rw [if_neg hc1]
    by_cases hc2 : 1 / 2 < q - ⌊q⌋
    · rw [if_pos hc2, abs_le]
      push_cast
      constructor <;> linarith
    · rw [if_neg hc2]
      by_cases hc3 : 2 ∣ ⌊q⌋
      · rw [if_pos hc3, abs_le]
        constructor <;> linarith
      · rw [if_neg hc3, abs_le]
        push_cast
        constructor <;> linarith

/-- Claim C9: the offer discount percentage is 0 for a zero normal price,
otherwise `((normal - offer) / normal) * 100` rounded (half to even) to two
decimals, computed in exact rational arithmetic; the result counts
hundredths of a percent, so 2.50 versus 1.99 gives 2040, rendered 20.40. -/
theorem C9_discount_percent (n o : ℚ) (hn : n ≠ 0) :
    get_discount_percent 0 o = 0 ∧
    get_discount_percent (5 / 2) (199 / 100) = 2040 ∧
    get_discount_percent n o = roundHalfEven ((n - o) / n * 100 * 100) ∧
    |(get_discount_percent n o : ℚ) / 100 - (n - o) / n * 100| ≤ 1 / 200 := by
  refine ⟨by simp [get_discount_percent], ?_, ?_, ?_⟩
  · rw [get_discount_percent, if_neg (by norm_num)]
    rw [show ((5 : ℚ) / 2 - 199 / 100) / (5 / 2) * 100 * 100 = 2040 by norm_num]
    simp only [roundHalfEven]
    rw [show ⌊(2040 : ℚ)⌋ = 2040 by norm_num]
    norm_num
  · rw [get_discount_percent, if_neg hn]
  · rw [get_discount_percent, if_neg hn]
    have key := abs_roundHalfEven_sub_le ((n - o) / n * 100 * 100)
    have harg : (roundHalfEven ((n - o) / n * 100 * 100) : ℚ) / 100 - (n - o) / n * 100 =
        ((roundHalfEven ((n - o) / n * 100 * 100) : ℚ) - (n - o) / n * 100 * 100) / 100 := by
      ring
    rw [harg, abs_div, abs_of_pos (show (0 : ℚ) < 100 by norm_num)]
    linarith

/-- Witness for C9 at normal price 1.00 and offer price 0. -/
theorem C9_discount_percent_witness :
    get_discount_percent 0 0 = 0 ∧
    get_discount_percent (5 / 2) (199 / 100) = 2040 ∧
    get_discount_percent 1 0 = roundHalfEven ((1 - 0) / 1 * 100 * 100) ∧
    |(get_discount_percent 1 0 : ℚ) / 100 - (1 - 0) / 1 * 100| ≤ 1 / 200 :=
  C9_discount_percent 1 0 (by norm_num)

end GrocerySaver
